import Mathlib

/-!
Verification of the kubevirt web-ui operator's reconcile controller
(`pkg/controller/kwebui/kwebui_controller.go`).

The controller is embedded shallowly: the cluster (the stored `KWebUI`
resource and the stored `console` `Deployment`), the temp-file system,
and the outcomes of external commands (`oc login`, `oc project`,
`ansible-playbook`) and of cluster API calls are all carried in one
explicit state `S` that every function threads through, mirroring the
Go control flow statement by statement.  Strings are modelled as Lean
`String` (the Go code indexes bytes; every string the controller
manipulates here is ASCII, where bytes and characters coincide).
-/

namespace KWebUIOp

/-! ### Constants (kwebui_controller.go, lines 29-42) -/

/-- `const PlaybookFile` — fixed entry-point path of the ansible engine. -/
def PlaybookFile : String := "/kubevirt-web-ui-ansible/playbooks/kubevirt-web-ui/config.yml"

/-- `const WebUIContainerName = "console"`. -/
def WebUIContainerName : String := "console"

def PhaseFreshProvision : String := "PROVISION_STARTED"
def PhaseProvisioned : String := "PROVISIONED"
def PhaseProvisionFailed : String := "PROVISION_FAILED"
def PhaseDeprovision : String := "DEPROVISION_STARTED"
def PhaseDeprovisioned : String := "DEPROVISIONED"
def PhaseDeprovisionFailed : String := "DEPROVISION_FAILED"
def PhaseOtherError : String := "OTHER_ERROR"
def PhaseNoDeployment : String := "NOT_DEPLOYED"
def PhaseOwnerReferenceFailed : String := "OWNER_REFERENCE_FAILED"

/-- `fmt.Sprintf(InventoryFilePattern, suffix)` with
`InventoryFilePattern = "/tmp/inventory_%s.ini"`. -/
def inventoryFileName (suffix : String) : String := "/tmp/inventory_" ++ suffix ++ ".ini"

/-- `fmt.Sprintf(ConfigFilePattern, suffix)` with
`ConfigFilePattern = "/tmp/config_%s"`. -/
def configFileName (suffix : String) : String := "/tmp/config_" ++ suffix

/-! ### Pure string helpers (lines 385-409) -/

/-- `func def(s, defVal string) string` (line 385): the value, or the
default when the value is empty.  Named `defStr` because `def` is a Lean
keyword. -/
def defStr (s defVal : String) : String := if s = "" then defVal else s

/-- `strings.LastIndex(value, a)` over character lists: the largest index
at which `a` occurs in `value`, if any (`LastIndex(value, "")` is
`value.length`, as in Go). -/
def lastIndex (value a : List Char) : Option Nat :=
  (List.range (value.length + 1)).reverse.find? (fun i => a.isPrefixOf (value.drop i))

/-- `func afterLast(value, a string) string` (line 399): the substring
after the last occurrence of `a`, or `""` when `a` does not occur or
occurs only as a suffix. -/
def afterLast (value a : String) : String :=
  match lastIndex value.data a.data with
  | none => ""
  | some pos =>
    let adjustedPos := pos + a.data.length
    if value.data.length ≤ adjustedPos then ""
    else String.mk (value.data.drop adjustedPos)

/-- `strings.TrimPrefix(s, p)`: drop `p` from the front of `s` when `s`
starts with it, otherwise return `s` unchanged. -/
def trimPrefix (s p : String) : String :=
  if p.data.isPrefixOf s.data then String.mk (s.data.drop p.data.length) else s

/-! ### Data model

The `KWebUI` custom resource (its `Spec` fields are exactly the ones the
controller reads) and the `console` `Deployment` the controller inspects. -/

structure KWebUISpec where
  Version : String
  RegistryUrl : String
  RegistryNamespace : String
  OpenshiftMasterDefaultSubdomain : String
  PublicMasterHostname : String
deriving DecidableEq, Repr

structure KWebUIStatus where
  Phase : String
  Message : String
deriving DecidableEq, Repr

structure KWebUI where
  Spec : KWebUISpec
  Status : KWebUIStatus
deriving DecidableEq, Repr

structure Container where
  Name : String
  Image : String
deriving DecidableEq, Repr

/-- The deployed artifact: its pod-template containers and its owner
references (abstracted to the owners' names). -/
structure Deployment where
  Containers : List Container
  OwnerRefs : List String
deriving DecidableEq, Repr

/-! ### Observable events of one reconcile pass -/

/-- Observable side effects recorded in order: every `updateStatus` call
(the attempted status write) and every `ansible-playbook` invocation
(tagged with the `apb_action` of the inventory it was given). -/
inductive Event where
  | statusWrite (phase msg : String)
  | playbookRun (action : String)
deriving DecidableEq, Repr

/-! ### The threaded state

`S` carries the cluster-stored objects, the temp-file system, the event
log, and oracles fixing the outcome of every external interaction of the
pass (process exits, API errors, the random suffix source). -/

structure S where
  /-- The stored `KWebUI` resource; `none` models not-found. -/
  kwebui : Option KWebUI
  /-- The stored `console` `Deployment`; `none` models not-found. -/
  deployment : Option Deployment
  /-- Paths currently existing in `/tmp`. -/
  files : List String
  /-- Every path ever passed to `removeFile`, in order. -/
  removeCalls : List String
  /-- Contents of files this pass finished writing, keyed by path. -/
  fileContents : List (String × String)
  /-- Observable events, in order. -/
  events : List Event
  /-- The random-suffix stream of `unique()`; an exhausted stream models
  `crypto/rand` failing, where the code falls back to `"abcde"`. -/
  suffixes : List String
  /-- `rest.InClusterConfig()` succeeds. -/
  inClusterOk : Bool
  /-- The `oc login` command exits zero. -/
  loginOk : Bool
  /-- The `oc project` command exits zero. -/
  projectOk : Bool
  /-- `os.Create` of the inventory file succeeds. -/
  createOk : Bool
  /-- The final `WriteString` into the inventory file succeeds. -/
  writeOk : Bool
  /-- Exit outcomes of successive `ansible-playbook` runs (an exhausted
  list means the run succeeds). -/
  playbookOutcomes : List Bool
  /-- The deployment `Get` inside `setOwnerReference` does not fail
  transiently. -/
  ownerGetOk : Bool
  /-- The resource `Get` inside `updateStatus` does not fail transiently. -/
  statusGetOk : Bool
  /-- The resource `Update` inside `updateStatus` succeeds. -/
  statusUpdateOk : Bool
  /-- The `KWebUI` `Get` at the top of `Reconcile` fails transiently
  (an error that is not not-found). -/
  getInstanceErr : Bool
  /-- The `Deployment` `Get` at the top of `Reconcile` fails transiently
  (an error that is not not-found). -/
  getDeploymentErr : Bool
deriving DecidableEq, Repr

/-- `func unique() string` (line 427): pop the next random suffix, or the
fixed fallback literal `"abcde"` when the random source is unavailable. -/
def uniqueStep (s : S) : String × S :=
  match s.suffixes with
  | [] => ("abcde", s)
  | u :: rest => (u, { s with suffixes := rest })

/-- `func removeFile(name string)` (line 392): `os.Remove`; a removal
error (e.g. the file is absent) is logged only. -/
def removeFile (s : S) (name : String) : S :=
  { s with files := s.files.erase name, removeCalls := s.removeCalls ++ [name] }

/-- `func updateStatus(r, request, phase, msg)` (line 411): record the
attempted write, re-fetch the resource, set `Status.Phase` and
`Status.Message` on the fetched copy and write it back; a fetch or
update failure is logged and swallowed (the function returns nothing). -/
def updateStatus (s : S) (phase msg : String) : S :=
  let s := { s with events := s.events ++ [Event.statusWrite phase msg] }
  if s.statusGetOk then
    match s.kwebui with
    | none => s
    | some inst =>
      if s.statusUpdateOk then
        { s with kwebui := some { inst with Status := { Phase := phase, Message := msg } } }
      else s
  else s

/-! ### The generated configuration artifact (lines 270-308)

`generateInventory` writes the inventory as a fixed sequence of
`WriteString` calls.  `inventoryChunks` lists those written strings in
order (one list element per `WriteString` call in the source) and
`inventoryContent` is their concatenation — the full file content, a
pure function of the `KWebUI` spec, the namespace and the action. -/

def inventoryChunks (inst : KWebUI) (ns action : String) : List String :=
  ["[OSEv3:children]\nmasters\n\n",
   "[OSEv3:vars]\n",
   "platform=openshift\n",
   "apb_action=" ++ action ++ "\n",
   "registry_url=" ++ defStr inst.Spec.RegistryUrl "quay.io" ++ "\n",
   "registry_namespace=" ++ defStr inst.Spec.RegistryNamespace "kubevirt" ++ "\n",
   "docker_tag=" ++ defStr inst.Spec.Version "v1.4" ++ "\n",
   "kubevirt_web_ui_namespace=" ++ defStr ns "kubevirt-web-ui" ++ "\n"]
  ++ (if action = "deprovision" then ["preserve_namespace=true\n"] else [])
  ++ (if inst.Spec.OpenshiftMasterDefaultSubdomain = "" then [] else
       ["openshift_master_default_subdomain=" ++ inst.Spec.OpenshiftMasterDefaultSubdomain ++ "\n"])
  ++ (if inst.Spec.PublicMasterHostname = "" then [] else
       ["public_master_hostname=" ++ inst.Spec.PublicMasterHostname ++ "\n"])
  ++ ["\n", "[masters]\n", "127.0.0.1 ansible_connection=local\n"]

def inventoryContent (inst : KWebUI) (ns action : String) : String :=
  String.join (inventoryChunks inst ns action)

/-- `func generateInventory(instance, namespace, action)` (line 270):
create the ephemeral inventory file under a fresh suffix and write
`inventoryContent` into it.  On a creation failure, or on a failure of
the final `WriteString` (checked in the source after the file already
exists), the function returns `("", err)` — note that in the latter case
the created file stays behind. -/
def generateInventory (s : S) (inst : KWebUI) (ns action : String) :
    S × Except String String :=
  let (u, s) := uniqueStep s
  let inventoryFile := inventoryFileName u
  if ¬ s.createOk then (s, Except.error "failed to create inventory file")
  else
    let s := { s with files := s.files ++ [inventoryFile] }
    if ¬ s.writeOk then (s, Except.error "failed to write into the inventory file")
    else
      ({ s with fileContents := s.fileContents ++ [(inventoryFile, inventoryContent inst ns action)] },
       Except.ok inventoryFile)

/-- `func loginClient(namespace string)` (line 235): read the in-cluster
config, run `oc login` (which populates the ephemeral kubeconfig at
`configFile` when it succeeds) and `oc project`, both with
`KUBECONFIG=configFile`.  Any failure returns `("", err)` — note that
when `oc project` fails the kubeconfig created by the successful login
stays behind. -/
def loginClient (s : S) (ns : String) : S × Except String String :=
  if ¬ s.inClusterOk then (s, Except.error "failed to get in-cluster config")
  else
    let (u, s) := uniqueStep s
    let configFile := configFileName u
    if ¬ s.loginOk then (s, Except.error "oc login failed")
    else
      let s := { s with files := s.files ++ [configFile] }
      if ¬ s.projectOk then (s, Except.error "oc project failed")
      else (s, Except.ok configFile)

/-- `func runPlaybook(inventoryFile, configFile string)` (line 331): run
`ansible-playbook -i inventoryFile PlaybookFile -vvv` with
`KUBECONFIG=configFile`; a non-zero exit is an error.  The recorded
`playbookRun` event is tagged with the `apb_action` the caller put into
the inventory. -/
def runPlaybook (s : S) (inventoryFile configFile action : String) : S × Option String :=
  let s := { s with events := s.events ++ [Event.playbookRun action] }
  match s.playbookOutcomes with
  | [] => (s, none)
  | ok :: rest =>
    ({ s with playbookOutcomes := rest },
     if ok then none else some "ansible-playbook failed")

/-- `func runPlaybookWithSetup(namespace, instance, action)` (line 138):
log in (deferring removal of the credentials file), generate the
inventory (deferring removal of the inventory file), run the playbook;
the deferred removals run at function exit in LIFO order on whatever
path leaves the function after their registration. -/
def runPlaybookWithSetup (s : S) (ns : String) (inst : KWebUI) (action : String) :
    S × Option String :=
  match loginClient s ns with
  | (s, Except.error e) => (s, some e)
  | (s, Except.ok configFile) =>
    match generateInventory s inst ns action with
    | (s, Except.error e) => (removeFile s configFile, some e)
    | (s, Except.ok inventoryFile) =>
      let (s, err) := runPlaybook s inventoryFile configFile action
      (removeFile (removeFile s inventoryFile) configFile, err)

/-- `func setOwnerReference(r, request, instance)` (line 310): re-fetch
the `console` Deployment (any fetch failure — transient or not-found —
writes status `OWNER_REFERENCE_FAILED` and returns the error), then call
`controllerutil.SetControllerReference` on the fetched in-memory copy.
The source never issues an `Update` of the Deployment, so the stored
object is untouched; and the source checks the stale `err` from the
`Get` (not the `SetControllerReference` result) afterwards, so that
second branch is dead and the function returns `nil`. -/
def setOwnerReference (s : S) (inst : KWebUI) : S × Option String :=
  match s.deployment, s.ownerGetOk with
  | some d, true =>
    let _updated : Deployment := { d with OwnerRefs := d.OwnerRefs ++ ["KWebUI"] }
    (s, none)
  | _, _ =>
    (updateStatus s PhaseOwnerReferenceFailed
      "Failed to retrieve the just created kubevirt-web-ui Deployment object to set owner reference.",
     some "failed to get Deployment for owner reference")

/-- `func freshProvision(r, request, instance)` (line 155): with an empty
desired version, write `NOT_DEPLOYED` and stop; otherwise announce
`PROVISION_STARTED`, run the provision workflow, and on success call
`setOwnerReference` — discarding its returned error — before writing
`PROVISIONED`; on failure write `PROVISION_FAILED` and return the error. -/
def freshProvision (s : S) (ns : String) (inst : KWebUI) : S × Option String :=
  if inst.Spec.Version = "" then
    (updateStatus s PhaseNoDeployment "", none)
  else
    let s := updateStatus s PhaseFreshProvision ("Target version: " ++ inst.Spec.Version)
    let (s, err) := runPlaybookWithSetup s ns inst "provision"
    match err with
    | none =>
      let (s, _) := setOwnerReference s inst
      (updateStatus s PhaseProvisioned "Provision finished.", none)
    | some e =>
      (updateStatus s PhaseProvisionFailed
        "Failed to provision Kubevirt Web UI. See operator's log for more details.", some e)

/-- `func deprovision(r, request, instance)` (line 175): announce
`DEPROVISION_STARTED`, run the deprovision workflow, then write
`DEPROVISIONED` or `DEPROVISION_FAILED`; the workflow error is returned
as is. -/
def deprovision (s : S) (ns : String) (inst : KWebUI) : S × Option String :=
  let s := updateStatus s PhaseDeprovision ""
  let (s, err) := runPlaybookWithSetup s ns inst "deprovision"
  match err with
  | none => (updateStatus s PhaseDeprovisioned "Deprovision finished.", none)
  | some e =>
    (updateStatus s PhaseDeprovisionFailed
      "Failed to deprovision Kubevirt Web UI. See operator's log for more details.", some e)

/-- Outcome of the container loop at the top of
`reconcileExistingDeployment` (lines 189-210). -/
inductive VersionRead where
  /-- No container named `console` exists: the loop leaves
  `existingVersion` empty and the post-loop check takes the
  `OTHER_ERROR` branch. -/
  | noConsole
  /-- A `console` container exists but its image tag is empty after
  taking the part after the last `:` and stripping a leading `v`: the
  in-loop check returns an error. -/
  | emptyTag
  /-- A `console` container exists with a non-empty stripped tag. -/
  | ok (version : String)
deriving DecidableEq, Repr

/-- The `for _, container := range ...` loop of
`reconcileExistingDeployment`: the first container named `console`
determines the outcome (the loop `break`s after it). -/
def readExistingVersion (d : Deployment) : VersionRead :=
  match d.Containers.find? (fun c => c.Name == WebUIContainerName) with
  | none => VersionRead.noConsole
  | some c =>
    let v := trimPrefix (afterLast c.Image ":") "v"
    if v = "" then VersionRead.emptyTag else VersionRead.ok v

/-- `func reconcileExistingDeployment(r, request, instance, deployment)`
(line 188): read the deployed version; an empty-after-strip tag returns
an error with no status write; a missing `console` container writes
`OTHER_ERROR` and returns `nil`; equal versions write `PROVISIONED`
("nothing to do"); an empty desired version deprovisions; differing
non-empty versions deprovision and, only if that succeeded, provision. -/
def reconcileExistingDeployment (s : S) (ns : String) (inst : KWebUI)
    (d : Deployment) : S × Option String :=
  match readExistingVersion d with
  | VersionRead.emptyTag => (s, some "failed to read existing image tag")
  | VersionRead.noConsole =>
    (updateStatus s PhaseOtherError "Can not read deployed container version.", none)
  | VersionRead.ok existingVersion =>
    if inst.Spec.Version = existingVersion then
      (updateStatus s PhaseProvisioned
        ("Existing version conform the requested one: " ++ existingVersion ++ ". Nothing to do."),
       none)
    else if inst.Spec.Version = "" then
      deprovision s ns inst
    else
      let (s, err) := deprovision s ns inst
      match err with
      | some e => (s, some e)
      | none => freshProvision s ns inst

/-- `func (r *ReconcileKWebUI) Reconcile(request)` (line 98): fetch the
`KWebUI` (not-found ends the pass cleanly with no status write; another
fetch error is returned), fetch the `console` Deployment (not-found
leads to `freshProvision`; another fetch error writes `OTHER_ERROR` and
is returned), else reconcile the existing deployment. -/
def Reconcile (s : S) (ns : String) : S × Option String :=
  if s.getInstanceErr then (s, some "failed to get KWebUI")
  else
    match s.kwebui with
    | none => (s, none)
    | some inst =>
      if s.getDeploymentErr then
        (updateStatus s PhaseOtherError "Failed to retrieve kubevirt-web-ui Deployment object.",
         some "failed to get Deployment")
      else
        match s.deployment with
        | none => freshProvision s ns inst
        | some d => reconcileExistingDeployment s ns inst d

/-! ### Characterization lemmas for the primitives -/

lemma uniqueStep_eq (s : S) :
    uniqueStep s = (s.suffixes.headD "abcde", { s with suffixes := s.suffixes.tail }) := by
  cases s with
  | mk f1 f2 f3 f4 f5 f6 sfx f8 f9 f10 f11 f12 f13 f14 f15 f16 f17 f18 =>
    cases sfx <;> rfl

lemma updateStatus_eq (s : S) (p m : String) :
    updateStatus s p m =
      { s with
        events := s.events ++ [Event.statusWrite p m],
        kwebui := if s.statusGetOk ∧ s.statusUpdateOk
                  then s.kwebui.map (fun i => { i with Status := { Phase := p, Message := m } })
                  else s.kwebui } := by
  unfold updateStatus
  rcases hg : s.statusGetOk <;> rcases hk : s.kwebui <;> rcases hu : s.statusUpdateOk <;>
    simp [hg, hk, hu]

lemma updateStatus_inClusterOk (s : S) (p m : String) :
    (updateStatus s p m).inClusterOk = s.inClusterOk := by rw [updateStatus_eq]

lemma updateStatus_loginOk (s : S) (p m : String) :
    (updateStatus s p m).loginOk = s.loginOk := by rw [updateStatus_eq]

lemma updateStatus_projectOk (s : S) (p m : String) :
    (updateStatus s p m).projectOk = s.projectOk := by rw [updateStatus_eq]

lemma updateStatus_createOk (s : S) (p m : String) :
    (updateStatus s p m).createOk = s.createOk := by rw [updateStatus_eq]

lemma updateStatus_writeOk (s : S) (p m : String) :
    (updateStatus s p m).writeOk = s.writeOk := by rw [updateStatus_eq]

lemma updateStatus_playbookOutcomes (s : S) (p m : String) :
    (updateStatus s p m).playbookOutcomes = s.playbookOutcomes := by rw [updateStatus_eq]

lemma updateStatus_ownerGetOk (s : S) (p m : String) :
    (updateStatus s p m).ownerGetOk = s.ownerGetOk := by rw [updateStatus_eq]

lemma updateStatus_deployment (s : S) (p m : String) :
    (updateStatus s p m).deployment = s.deployment := by rw [updateStatus_eq]

lemma updateStatus_events (s : S) (p m : String) :
    (updateStatus s p m).events = s.events ++ [Event.statusWrite p m] := by rw [updateStatus_eq]

lemma runPlaybook_eq (s : S) (inventoryFile configFile action : String) :
    runPlaybook s inventoryFile configFile action =
      ({ s with
         events := s.events ++ [Event.playbookRun action],
         playbookOutcomes := s.playbookOutcomes.tail },
       if s.playbookOutcomes.headD true then none else some "ansible-playbook failed") := by
  unfold runPlaybook
  rcases hp : s.playbookOutcomes with _ | ⟨b, rest⟩ <;> simp [hp]

lemma loginClient_success (s : S) (ns : String)
    (h1 : s.inClusterOk = true) (h2 : s.loginOk = true) (h3 : s.projectOk = true) :
    loginClient s ns =
      ({ s with
         suffixes := s.suffixes.tail,
         files := s.files ++ [configFileName (s.suffixes.headD "abcde")] },
       Except.ok (configFileName (s.suffixes.headD "abcde"))) := by
  unfold loginClient
  rw [uniqueStep_eq]
  simp [h1, h2, h3]

lemma generateInventory_success (s : S) (inst : KWebUI) (ns action : String)
    (h4 : s.createOk = true) (h5 : s.writeOk = true) :
    generateInventory s inst ns action =
      ({ s with
         suffixes := s.suffixes.tail,
         files := s.files ++ [inventoryFileName (s.suffixes.headD "abcde")],
         fileContents := s.fileContents ++
           [(inventoryFileName (s.suffixes.headD "abcde"), inventoryContent inst ns action)] },
       Except.ok (inventoryFileName (s.suffixes.headD "abcde"))) := by
  unfold generateInventory
  rw [uniqueStep_eq]
  simp [h4, h5]

/-- Full characterization of `runPlaybookWithSetup` when both setup
helpers succeed: both ephemeral files are created and then removed by the
deferred calls (inventory first, credentials second), and the pass error
is exactly the playbook's outcome. -/
lemma rpws_success_eq (s : S) (ns : String) (inst : KWebUI) (action : String)
    (h1 : s.inClusterOk = true) (h2 : s.loginOk = true) (h3 : s.projectOk = true)
    (h4 : s.createOk = true) (h5 : s.writeOk = true) :
    runPlaybookWithSetup s ns inst action =
      ({ s with
         suffixes := s.suffixes.tail.tail,
         files := (((s.files ++ [configFileName (s.suffixes.headD "abcde")])
                     ++ [inventoryFileName (s.suffixes.tail.headD "abcde")]).erase
                     (inventoryFileName (s.suffixes.tail.headD "abcde"))).erase
                     (configFileName (s.suffixes.headD "abcde")),
         fileContents := s.fileContents ++
           [(inventoryFileName (s.suffixes.tail.headD "abcde"), inventoryContent inst ns action)],
         events := s.events ++ [Event.playbookRun action],
         playbookOutcomes := s.playbookOutcomes.tail,
         removeCalls := s.removeCalls ++
           [inventoryFileName (s.suffixes.tail.headD "abcde"),
            configFileName (s.suffixes.headD "abcde")] },
       if s.playbookOutcomes.headD true then none else some "ansible-playbook failed") := by
  unfold runPlaybookWithSetup
  rw [loginClient_success s ns h1 h2 h3]
  simp only [generateInventory_success, runPlaybook_eq, removeFile, h4, h5]
  simp [List.append_assoc]

/-- Whatever the oracle outcomes, `runPlaybookWithSetup` appends at most
one `playbookRun` event and leaves the cluster objects and the
status/owner oracles untouched. -/
lemma rpws_shape (s : S) (ns : String) (inst : KWebUI) (action : String) :
    ∃ t, (runPlaybookWithSetup s ns inst action).1.events = s.events ++ t
      ∧ (t = [] ∨ t = [Event.playbookRun action])
      ∧ (runPlaybookWithSetup s ns inst action).1.kwebui = s.kwebui
      ∧ (runPlaybookWithSetup s ns inst action).1.deployment = s.deployment
      ∧ (runPlaybookWithSetup s ns inst action).1.ownerGetOk = s.ownerGetOk
      ∧ (runPlaybookWithSetup s ns inst action).1.statusGetOk = s.statusGetOk
      ∧ (runPlaybookWithSetup s ns inst action).1.statusUpdateOk = s.statusUpdateOk := by
  by_cases h1 : s.inClusterOk
  · by_cases h2 : s.loginOk
    · by_cases h3 : s.projectOk
      · by_cases h4 : s.createOk
        · by_cases h5 : s.writeOk
          · refine ⟨[Event.playbookRun action], ?_⟩
            rw [rpws_success_eq s ns inst action h1 h2 h3 h4 h5]
            simp
          · refine ⟨[], ?_⟩
            unfold runPlaybookWithSetup loginClient generateInventory
            simp [h1, h2, h3, uniqueStep_eq, h4, h5, removeFile]
        · refine ⟨[], ?_⟩
          unfold runPlaybookWithSetup loginClient generateInventory
          simp [h1, h2, h3, uniqueStep_eq, h4, removeFile]
      · refine ⟨[], ?_⟩
        unfold runPlaybookWithSetup loginClient
        rw [uniqueStep_eq]
        simp [h1, h2, h3]
    · refine ⟨[], ?_⟩
      unfold runPlaybookWithSetup loginClient
      rw [uniqueStep_eq]
      simp [h1, h2]
  · refine ⟨[], ?_⟩
    unfold runPlaybookWithSetup loginClient
    simp [h1]

/-! ### String disjointness helpers

Two strings with incomparable literal prefixes are distinct whatever
follows the prefixes; used to tell the generated configuration lines and
the two ephemeral file names apart. -/

lemma append_ne_append (l1 l2 a b : List Char) (h1 : ¬ l1 <+: l2) (h2 : ¬ l2 <+: l1) :
    l1 ++ a ≠ l2 ++ b := by
  intro he
  rcases List.prefix_or_prefix_of_prefix (List.prefix_append l1 a)
      (he.symm ▸ List.prefix_append l2 b) with h | h
  · exact h1 h
  · exact h2 h

lemma ne_of_key (q p v t : String) (h1 : ¬ q.data <+: p.data) (h2 : ¬ p.data <+: q.data) :
    q ≠ p ++ v ++ t := by
  intro he
  have hd : q.data ++ [] = p.data ++ (v.data ++ t.data) := by
    have := congrArg String.data he
    simp only [String.data_append, List.append_assoc] at this
    simp [this]
  exact append_ne_append q.data p.data [] (v.data ++ t.data) h1 h2 hd

lemma ne_of_keys (p1 v1 t1 p2 v2 t2 : String)
    (h1 : ¬ p1.data <+: p2.data) (h2 : ¬ p2.data <+: p1.data) :
    p1 ++ v1 ++ t1 ≠ p2 ++ v2 ++ t2 := by
  intro he
  have hd : p1.data ++ (v1.data ++ t1.data) = p2.data ++ (v2.data ++ t2.data) := by
    have := congrArg String.data he
    simp only [String.data_append, List.append_assoc] at this
    exact this
  exact append_ne_append p1.data p2.data _ _ h1 h2 hd

lemma inventory_ne_config (u2 u1 : String) : inventoryFileName u2 ≠ configFileName u1 := by
  intro he
  have hd : "/tmp/inventory_".data ++ (u2.data ++ ".ini".data) = "/tmp/config_".data ++ u1.data := by
    have := congrArg String.data he
    simp only [inventoryFileName, configFileName, String.data_append, List.append_assoc] at this
    exact this
  exact append_ne_append _ _ _ _ (by decide) (by decide) hd

/-! ### Concrete fixtures used by witnesses and counterexamples -/

/-- A spec requesting version `v` with every optional field empty. -/
def specOnly (v : String) : KWebUISpec :=
  { Version := v, RegistryUrl := "", RegistryNamespace := "",
    OpenshiftMasterDefaultSubdomain := "", PublicMasterHostname := "" }

def instOnly (v : String) : KWebUI :=
  { Spec := specOnly v, Status := { Phase := "", Message := "" } }

/-- A Deployment whose only container is the `console` container running
`image`. -/
def consoleDep (image : String) : Deployment :=
  { Containers := [{ Name := "console", Image := image }], OwnerRefs := [] }

/-- A Deployment with no container named `console`. -/
def noConsoleDep : Deployment :=
  { Containers := [{ Name := "web", Image := "quay.io/kubevirt/kubevirt-web-ui:v1.4" }],
    OwnerRefs := [] }

/-- A pass-start state in which every external interaction succeeds. -/
def allOk (kw : Option KWebUI) (dep : Option Deployment) : S :=
  { kwebui := kw, deployment := dep, files := [], removeCalls := [], fileContents := [],
    events := [], suffixes := ["a1", "b2", "c3", "d4"], inClusterOk := true, loginOk := true,
    projectOk := true, createOk := true, writeOk := true, playbookOutcomes := [true, true],
    ownerGetOk := true, statusGetOk := true, statusUpdateOk := true,
    getInstanceErr := false, getDeploymentErr := false }

/-! ### The claims -/

/-- **C9.** The ownership-link operation never writes the child artifact
back to the cluster: `setOwnerReference` fetches the Deployment and
computes a controller reference on the in-memory copy only, no update of
the Deployment is ever issued, so the stored Deployment — its owner
references included — is unchanged by every invocation. -/
theorem claim_C9_link_never_writes_deployment (s : S) (inst : KWebUI) :
    (setOwnerReference s inst).1.deployment = s.deployment := by
  unfold setOwnerReference
  rcases hd : s.deployment <;> rcases hg : s.ownerGetOk <;> simp [hd, hg, updateStatus_eq]

/-- **C7.** Whenever the deployed `console` container's tag is empty
after normalization (the in-loop check of `reconcileExistingDeployment`),
the pass returns an error — forcing a retry — and performs no status
write; in fact the whole state is untouched. -/
theorem claim_C7_empty_tag_errors (s : S) (ns : String) (inst : KWebUI) (d : Deployment)
    (h : readExistingVersion d = VersionRead.emptyTag) :
    reconcileExistingDeployment s ns inst d = (s, some "failed to read existing image tag") := by
  unfold reconcileExistingDeployment
  rw [h]

/-- Witness for C7 at a concrete input: image `...:v` has a tag (`"v"`)
that is empty once the leading `v` is stripped. -/
theorem claim_C7_witness :
    readExistingVersion (consoleDep "quay.io/kubevirt/kubevirt-web-ui:v") = VersionRead.emptyTag
    ∧ reconcileExistingDeployment
        (allOk (some (instOnly "1.4")) (some (consoleDep "quay.io/kubevirt/kubevirt-web-ui:v")))
        "ns0" (instOnly "1.4") (consoleDep "quay.io/kubevirt/kubevirt-web-ui:v")
      = (allOk (some (instOnly "1.4")) (some (consoleDep "quay.io/kubevirt/kubevirt-web-ui:v")),
         some "failed to read existing image tag") :=
  ⟨by decide, claim_C7_empty_tag_errors _ "ns0" _ _ (by decide)⟩

/-- **C2 counterexample.** A deployed artifact whose `console` container
image carries no tag at all: the claim says this is terminal (status
`OTHER_ERROR`, no error returned), but the pass returns an error and
writes no status at all — the missing-tag case falls into the in-loop
empty check, not into the `OTHER_ERROR` branch. -/
theorem claim_C2_counterexample :
    (reconcileExistingDeployment
        (allOk (some (instOnly "1.4")) (some (consoleDep "quay.io/kubevirt/kubevirt-web-ui")))
        "ns0" (instOnly "1.4") (consoleDep "quay.io/kubevirt/kubevirt-web-ui")).2
      = some "failed to read existing image tag"
    ∧ (reconcileExistingDeployment
        (allOk (some (instOnly "1.4")) (some (consoleDep "quay.io/kubevirt/kubevirt-web-ui")))
        "ns0" (instOnly "1.4") (consoleDep "quay.io/kubevirt/kubevirt-web-ui")).1.events
      = [] := by
  exact ⟨rfl, rfl⟩

/-- **C2 (amended).** The terminal no-retry outcome holds exactly for the
"no matching `console` container" case: there the pass writes status
`OTHER_ERROR` (and nothing else) and returns no error, so no retry is
signaled.  (A `console` container whose image carries no readable tag
instead returns an error, see the counterexample.) -/
theorem claim_C2_no_console_terminal (s : S) (ns : String) (inst : KWebUI) (d : Deployment)
    (h : readExistingVersion d = VersionRead.noConsole) (h0 : s.events = []) :
    (reconcileExistingDeployment s ns inst d).2 = none
    ∧ (reconcileExistingDeployment s ns inst d).1.events =
        [Event.statusWrite PhaseOtherError "Can not read deployed container version."] := by
  unfold reconcileExistingDeployment
  rw [h]
  simp [updateStatus_eq, h0]

/-- Witness for the amended C2 at a concrete input. -/
theorem claim_C2_no_console_terminal_witness :
    (reconcileExistingDeployment (allOk (some (instOnly "1.4")) (some noConsoleDep))
        "ns0" (instOnly "1.4") noConsoleDep).2 = none
    ∧ (reconcileExistingDeployment (allOk (some (instOnly "1.4")) (some noConsoleDep))
        "ns0" (instOnly "1.4") noConsoleDep).1.events =
        [Event.statusWrite PhaseOtherError "Can not read deployed container version."] :=
  claim_C2_no_console_terminal _ "ns0" _ _ (by decide) rfl

/-- **C1 (code bug).** The source strips the leading `v` only from the
deployed tag (line 195), never from the desired `Spec.Version`, so a
pair that is equal after v-stripping both — desired `"v1.4"` against
deployed tag `"v1.4"` — is *not* treated as a no-op: the comparison
`"v1.4" = "1.4"` fails and the pass runs a full deprovision-then-
provision instead of writing the "nothing to do" `PROVISIONED` status. -/
theorem claim_C1_one_sided_strip :
    trimPrefix "v1.4" "v" = trimPrefix (afterLast "quay.io/kubevirt/kubevirt-web-ui:v1.4" ":") "v"
    ∧ (reconcileExistingDeployment
        (allOk (some (instOnly "v1.4")) (some (consoleDep "quay.io/kubevirt/kubevirt-web-ui:v1.4")))
        "ns0" (instOnly "v1.4") (consoleDep "quay.io/kubevirt/kubevirt-web-ui:v1.4")).1.events
      = [Event.statusWrite PhaseDeprovision "",
         Event.playbookRun "deprovision",
         Event.statusWrite PhaseDeprovisioned "Deprovision finished.",
         Event.statusWrite PhaseFreshProvision "Target version: v1.4",
         Event.playbookRun "provision",
         Event.statusWrite PhaseProvisioned "Provision finished."] := by
  exact ⟨rfl, rfl⟩

/-- **C4 counterexample.** A pass in which the final write into the
generated-configuration file fails after the file was created: the pass
ends (with an error) while the inventory file still exists and no
removal was ever attempted for it — the file created in this pass is
*not* removed by the end of the pass, contradicting the claim. -/
theorem claim_C4_counterexample :
    (Reconcile { allOk (some (instOnly "2.0")) none with writeOk := false } "ns0").1.files
      = ["/tmp/inventory_b2.ini"]
    ∧ (Reconcile { allOk (some (instOnly "2.0")) none with writeOk := false } "ns0").1.removeCalls
      = ["/tmp/config_a1"]
    ∧ (Reconcile { allOk (some (instOnly "2.0")) none with writeOk := false } "ns0").2
      = some "failed to write into the inventory file" := by
  exact ⟨rfl, rfl, rfl⟩

/-- **C4 (amended).** When both setup helpers complete successfully, the
two ephemeral files of the workflow are each removed exactly once by the
deferred calls, whatever the playbook outcome — the file set is empty
again at the end and the removal log gains exactly one entry per file.
(When a helper fails *after* creating its file — the configuration-write
failure of the counterexample, or a namespace-selection failure after
`oc login` created the credentials file — that file is leaked instead.) -/
theorem claim_C4_cleanup_once (s : S) (ns : String) (inst : KWebUI) (action : String)
    (u1 u2 : String) (rest : List String)
    (h1 : s.inClusterOk = true) (h2 : s.loginOk = true) (h3 : s.projectOk = true)
    (h4 : s.createOk = true) (h5 : s.writeOk = true)
    (hs : s.suffixes = u1 :: u2 :: rest) (hf : s.files = []) :
    (runPlaybookWithSetup s ns inst action).1.files = []
    ∧ (runPlaybookWithSetup s ns inst action).1.removeCalls
        = s.removeCalls ++ [inventoryFileName u2, configFileName u1]
    ∧ inventoryFileName u2 ≠ configFileName u1 := by
  have hne := inventory_ne_config u2 u1
  rw [rpws_success_eq s ns inst action h1 h2 h3 h4 h5]
  refine ⟨?_, by simp [hs], hne⟩
  simp [hs, hf, List.erase_cons, hne, Ne.symm hne]

/-- Witness for the amended C4 at a concrete input. -/
theorem claim_C4_cleanup_once_witness :
    (allOk (some (instOnly "2.0")) none).suffixes = "a1" :: "b2" :: ["c3", "d4"]
    ∧ ((runPlaybookWithSetup (allOk (some (instOnly "2.0")) none) "ns0" (instOnly "2.0")
          "provision").1.files = []
       ∧ (runPlaybookWithSetup (allOk (some (instOnly "2.0")) none) "ns0" (instOnly "2.0")
          "provision").1.removeCalls
          = (allOk (some (instOnly "2.0")) none).removeCalls
              ++ [inventoryFileName "b2", configFileName "a1"]
       ∧ inventoryFileName "b2" ≠ configFileName "a1") :=
  ⟨rfl, claim_C4_cleanup_once _ "ns0" _ "provision" "a1" "b2" ["c3", "d4"]
    rfl rfl rfl rfl rfl rfl rfl⟩

/-- Shared characterization of `freshProvision` when the provisioning
workflow succeeds but the ownership-link fetch fails: no error escapes,
the event log shows the `OWNER_REFERENCE_FAILED` write followed at once
by the `PROVISIONED` write, and (when status writing works) the stored
resource ends with phase `PROVISIONED`. -/
lemma freshProvision_link_fail (s : S) (ns : String) (inst : KWebUI)
    (hv : ¬ inst.Spec.Version = "")
    (h1 : s.inClusterOk = true) (h2 : s.loginOk = true) (h3 : s.projectOk = true)
    (h4 : s.createOk = true) (h5 : s.writeOk = true)
    (h6 : s.playbookOutcomes.headD true = true)
    (hlink : s.ownerGetOk = false ∨ s.deployment = none) :
    (freshProvision s ns inst).2 = none
    ∧ (freshProvision s ns inst).1.events =
        s.events ++
          [Event.statusWrite PhaseFreshProvision ("Target version: " ++ inst.Spec.Version),
           Event.playbookRun "provision",
           Event.statusWrite PhaseOwnerReferenceFailed
             "Failed to retrieve the just created kubevirt-web-ui Deployment object to set owner reference.",
           Event.statusWrite PhaseProvisioned "Provision finished."]
    ∧ (s.statusGetOk = true → s.statusUpdateOk = true →
        (freshProvision s ns inst).1.kwebui =
          s.kwebui.map (fun i =>
            { i with Status := { Phase := PhaseProvisioned, Message := "Provision finished." } })) := by
  unfold freshProvision setOwnerReference
  rw [if_neg hv]
  rcases hlink with hog | hdep
  · rcases hdd : s.deployment with _ | d <;>
      simp only [rpws_success_eq, updateStatus_inClusterOk, updateStatus_loginOk,
        updateStatus_projectOk, updateStatus_createOk, updateStatus_writeOk,
        updateStatus_playbookOutcomes, updateStatus_deployment, updateStatus_ownerGetOk,
        h1, h2, h3, h4, h5, h6, hog, hdd] <;>
      refine ⟨by simp, by simp [updateStatus_eq, List.append_assoc], ?_⟩ <;>
      (intro hsg hsu; rcases hk : s.kwebui with _ | i <;>
        simp [updateStatus_eq, hsg, hsu, hk])
  · simp only [rpws_success_eq, updateStatus_inClusterOk, updateStatus_loginOk,
      updateStatus_projectOk, updateStatus_createOk, updateStatus_writeOk,
      updateStatus_playbookOutcomes, updateStatus_deployment, updateStatus_ownerGetOk,
      h1, h2, h3, h4, h5, h6, hdep]
    refine ⟨by simp, by simp [updateStatus_eq, List.append_assoc], ?_⟩
    intro hsg hsu
    rcases hk : s.kwebui with _ | i <;> simp [updateStatus_eq, hsg, hsu, hk]

/-- A provision-pass start state in which everything succeeds except the
Deployment fetch inside the ownership-link step. -/
def ownerFailS (v : String) : S :=
  { allOk (some (instOnly v)) none with ownerGetOk := false }

/-- **C3 counterexample.** A provision pass in which the provisioning
succeeds and the ownership-link step then fails: the pass returns *no*
error (so no retry is caused) and the last status written is
`PROVISIONED`, not `OWNER_REFERENCE_FAILED` — the link failure is not
reported from the enclosing provision path as the claim states. -/
theorem claim_C3_counterexample :
    (freshProvision (ownerFailS "2.0") "ns0" (instOnly "2.0")).2 = none
    ∧ (freshProvision (ownerFailS "2.0") "ns0" (instOnly "2.0")).1.events.getLast?
      = some (Event.statusWrite PhaseProvisioned "Provision finished.") := by
  exact ⟨rfl, rfl⟩

/-- **C3 (amended).** When provisioning succeeds and the ownership-link
step fails, the link step does set status `OWNER_REFERENCE_FAILED`, but
the enclosing provision path *discards* the link error: the pass returns
no error (no retry), the `OWNER_REFERENCE_FAILED` write is immediately
followed by a `PROVISIONED` write, and the already-successful
provisioning is not undone (no deprovision is run). -/
theorem claim_C3_owner_link_error_discarded (s : S) (ns : String) (inst : KWebUI)
    (hv : ¬ inst.Spec.Version = "")
    (h1 : s.inClusterOk = true) (h2 : s.loginOk = true) (h3 : s.projectOk = true)
    (h4 : s.createOk = true) (h5 : s.writeOk = true)
    (h6 : s.playbookOutcomes.headD true = true)
    (hlink : s.ownerGetOk = false ∨ s.deployment = none)
    (h0 : s.events = []) :
    (freshProvision s ns inst).2 = none
    ∧ (freshProvision s ns inst).1.events =
        [Event.statusWrite PhaseFreshProvision ("Target version: " ++ inst.Spec.Version),
         Event.playbookRun "provision",
         Event.statusWrite PhaseOwnerReferenceFailed
           "Failed to retrieve the just created kubevirt-web-ui Deployment object to set owner reference.",
         Event.statusWrite PhaseProvisioned "Provision finished."]
    ∧ Event.playbookRun "deprovision" ∉ (freshProvision s ns inst).1.events := by
  obtain ⟨ha, hb, _⟩ := freshProvision_link_fail s ns inst hv h1 h2 h3 h4 h5 h6 hlink
  rw [h0] at hb
  refine ⟨ha, by simpa using hb, ?_⟩
  rw [hb]
  simp

/-- Witness for the amended C3 at a concrete input. -/
theorem claim_C3_owner_link_error_discarded_witness :
    (freshProvision (ownerFailS "2.0") "ns0" (instOnly "2.0")).2 = none
    ∧ (freshProvision (ownerFailS "2.0") "ns0" (instOnly "2.0")).1.events =
        [Event.statusWrite PhaseFreshProvision ("Target version: " ++ (instOnly "2.0").Spec.Version),
         Event.playbookRun "provision",
         Event.statusWrite PhaseOwnerReferenceFailed
           "Failed to retrieve the just created kubevirt-web-ui Deployment object to set owner reference.",
         Event.statusWrite PhaseProvisioned "Provision finished."]
    ∧ Event.playbookRun "deprovision" ∉
        (freshProvision (ownerFailS "2.0") "ns0" (instOnly "2.0")).1.events :=
  claim_C3_owner_link_error_discarded (ownerFailS "2.0") "ns0" (instOnly "2.0")
    (by decide) rfl rfl rfl rfl rfl rfl (Or.inl rfl) rfl

/-- **C10.** When the provisioning process succeeds, the pass ends with
no error and the final recorded status is `PROVISIONED` even when the
ownership-link step fails: the `OWNER_REFERENCE_FAILED` status written
by the link step is immediately overwritten by `PROVISIONED` (both in
the event log and on the stored resource), and the link step's returned
error is discarded by `freshProvision`. -/
theorem claim_C10_link_failure_masked (s : S) (ns : String) (inst : KWebUI)
    (hv : ¬ inst.Spec.Version = "")
    (h1 : s.inClusterOk = true) (h2 : s.loginOk = true) (h3 : s.projectOk = true)
    (h4 : s.createOk = true) (h5 : s.writeOk = true)
    (h6 : s.playbookOutcomes.headD true = true)
    (hog : s.ownerGetOk = false) :
    (freshProvision s ns inst).2 = none
    ∧ (freshProvision s ns inst).1.events.getLast?
      = some (Event.statusWrite PhaseProvisioned "Provision finished.")
    ∧ Event.statusWrite PhaseOwnerReferenceFailed
        "Failed to retrieve the just created kubevirt-web-ui Deployment object to set owner reference."
      ∈ (freshProvision s ns inst).1.events
    ∧ (s.statusGetOk = true → s.statusUpdateOk = true →
        (freshProvision s ns inst).1.kwebui =
          s.kwebui.map (fun i =>
            { i with Status := { Phase := PhaseProvisioned, Message := "Provision finished." } })) := by
  obtain ⟨ha, hb, hc⟩ := freshProvision_link_fail s ns inst hv h1 h2 h3 h4 h5 h6 (Or.inl hog)
  refine ⟨ha, ?_, ?_, hc⟩
  · rw [hb]; simp
  · rw [hb]; simp

/-- Witness for C10 at a concrete input. -/
theorem claim_C10_link_failure_masked_witness :
    (freshProvision (ownerFailS "v2.0") "ns0" (instOnly "v2.0")).2 = none
    ∧ (freshProvision (ownerFailS "v2.0") "ns0" (instOnly "v2.0")).1.events.getLast?
      = some (Event.statusWrite PhaseProvisioned "Provision finished.")
    ∧ Event.statusWrite PhaseOwnerReferenceFailed
        "Failed to retrieve the just created kubevirt-web-ui Deployment object to set owner reference."
      ∈ (freshProvision (ownerFailS "v2.0") "ns0" (instOnly "v2.0")).1.events
    ∧ ((ownerFailS "v2.0").statusGetOk = true → (ownerFailS "v2.0").statusUpdateOk = true →
        (freshProvision (ownerFailS "v2.0") "ns0" (instOnly "v2.0")).1.kwebui =
          (ownerFailS "v2.0").kwebui.map (fun i =>
            { i with Status := { Phase := PhaseProvisioned, Message := "Provision finished." } })) :=
  claim_C10_link_failure_masked (ownerFailS "v2.0") "ns0" (instOnly "v2.0")
    (by decide) rfl rfl rfl rfl rfl rfl rfl

/-- Event-log shape of one `deprovision` call: it always starts with the
`DEPROVISION_STARTED` write, runs at most one playbook, and ends with a
`DEPROVISIONED` or `DEPROVISION_FAILED` write. -/
lemma deprovision_shape (s : S) (ns : String) (inst : KWebUI) :
    ∃ t fin, (deprovision s ns inst).1.events
        = s.events ++ [Event.statusWrite PhaseDeprovision ""] ++ t ++ [fin]
      ∧ (t = [] ∨ t = [Event.playbookRun "deprovision"])
      ∧ (fin = Event.statusWrite PhaseDeprovisioned "Deprovision finished."
         ∨ fin = Event.statusWrite PhaseDeprovisionFailed
             "Failed to deprovision Kubevirt Web UI. See operator's log for more details.") := by
  unfold deprovision
  dsimp only
  obtain ⟨t, ht, htt, -, -, -, -, -⟩ :=
    rpws_shape (updateStatus s PhaseDeprovision "") ns inst "deprovision"
  rcases hr : runPlaybookWithSetup (updateStatus s PhaseDeprovision "") ns inst "deprovision"
    with ⟨s2, err⟩
  rw [hr] at ht
  simp only at ht
  dsimp only
  cases err with
  | none =>
    refine ⟨t, Event.statusWrite PhaseDeprovisioned "Deprovision finished.", ?_, htt, Or.inl rfl⟩
    simp [updateStatus_events, ht, List.append_assoc]
  | some e =>
    refine ⟨t, Event.statusWrite PhaseDeprovisionFailed
      "Failed to deprovision Kubevirt Web UI. See operator's log for more details.",
      ?_, htt, Or.inr rfl⟩
    simp [updateStatus_events, ht, List.append_assoc]

/-- An event belonging to the provision workflow: a provision playbook
run or one of the three provision-phase status writes. -/
def provisionMarker : Event → Bool
  | Event.playbookRun a => a == "provision"
  | Event.statusWrite p _ =>
      p == PhaseFreshProvision || p == PhaseProvisioned || p == PhaseProvisionFailed

/-- **C5.** When the desired and deployed versions are both non-empty
and differ, the pass runs `deprovision` first (its `DEPROVISION_STARTED`
write is the pass's first event); only if that returned no error does
the pass continue into `freshProvision`, and if `deprovision` failed its
error is returned unchanged and nothing of the provision workflow — no
provision playbook run, no provision status write — ever happens. -/
theorem claim_C5_deprovision_first (s : S) (ns : String) (inst : KWebUI) (d : Deployment)
    (v : String) (hv : readExistingVersion d = VersionRead.ok v)
    (h1 : ¬ inst.Spec.Version = "") (h2 : ¬ inst.Spec.Version = v) (h0 : s.events = []) :
    (deprovision s ns inst).1.events.head? = some (Event.statusWrite PhaseDeprovision "")
    ∧ ((deprovision s ns inst).2 = none →
        reconcileExistingDeployment s ns inst d = freshProvision (deprovision s ns inst).1 ns inst)
    ∧ (∀ e, (deprovision s ns inst).2 = some e →
        reconcileExistingDeployment s ns inst d = ((deprovision s ns inst).1, some e))
    ∧ ((deprovision s ns inst).2 ≠ none →
        ∀ ev ∈ (reconcileExistingDeployment s ns inst d).1.events, provisionMarker ev = false) := by
  obtain ⟨t, fin, hev, htt, hfin⟩ := deprovision_shape s ns inst
  unfold reconcileExistingDeployment
  rw [hv]
  dsimp only
  rw [if_neg h2, if_neg h1]
  rcases hdp : deprovision s ns inst with ⟨s2, err⟩
  rw [hdp] at hev
  simp only at hev
  dsimp only
  refine ⟨?_, ?_, ?_, ?_⟩
  · rw [hev, h0]
    simp
  · intro hnone
    subst hnone
    rfl
  · intro e he
    subst he
    rfl
  · intro hne ev hmem
    rcases err with _ | e
    · exact absurd rfl hne
    · simp only at hmem
      rw [hev, h0] at hmem
      simp at hmem
      rcases htt with ht0 | ht0 <;> rcases hfin with hf0 | hf0 <;> subst ht0 <;> subst hf0 <;>
        simp at hmem <;>
        rcases hmem with rfl | rfl | rfl <;> decide

/-- A version-change pass whose deprovision playbook run fails. -/
def depFailS : S :=
  { allOk (some (instOnly "v2.0"))
      (some (consoleDep "quay.io/kubevirt/kubevirt-web-ui:v1.4")) with
    playbookOutcomes := [false] }

/-- Witness for C5 at a concrete input. -/
theorem claim_C5_deprovision_first_witness :
    (deprovision depFailS "ns0" (instOnly "v2.0")).1.events.head?
      = some (Event.statusWrite PhaseDeprovision "")
    ∧ ((deprovision depFailS "ns0" (instOnly "v2.0")).2 = none →
        reconcileExistingDeployment depFailS "ns0" (instOnly "v2.0")
            (consoleDep "quay.io/kubevirt/kubevirt-web-ui:v1.4")
          = freshProvision (deprovision depFailS "ns0" (instOnly "v2.0")).1 "ns0" (instOnly "v2.0"))
    ∧ (∀ e, (deprovision depFailS "ns0" (instOnly "v2.0")).2 = some e →
        reconcileExistingDeployment depFailS "ns0" (instOnly "v2.0")
            (consoleDep "quay.io/kubevirt/kubevirt-web-ui:v1.4")
          = ((deprovision depFailS "ns0" (instOnly "v2.0")).1, some e))
    ∧ ((deprovision depFailS "ns0" (instOnly "v2.0")).2 ≠ none →
        ∀ ev ∈ (reconcileExistingDeployment depFailS "ns0" (instOnly "v2.0")
            (consoleDep "quay.io/kubevirt/kubevirt-web-ui:v1.4")).1.events,
          provisionMarker ev = false) :=
  claim_C5_deprovision_first depFailS "ns0" (instOnly "v2.0")
    (consoleDep "quay.io/kubevirt/kubevirt-web-ui:v1.4") "1.4"
    (by decide) (by decide) (by decide) rfl

/-- **C6.** The generated configuration artifact is a pure function of
(`Spec`, namespace, action): its content is the concatenation of the
`inventoryChunks` write sequence, which reads nothing but the spec
fields, the namespace and the action (in particular not the resource
status); absent fields fall back to the fixed defaults
`registry_url=quay.io`, `registry_namespace=kubevirt`,
`docker_tag=v1.4`, `kubevirt_web_ui_namespace=kubevirt-web-ui`; the
`preserve_namespace=true` line is written exactly when the action is
`deprovision`; and the subdomain/hostname lines are written exactly when
the corresponding spec fields are non-empty. -/
theorem claim_C6_inventory (inst : KWebUI) (ns action : String) :
    inventoryContent inst ns action = String.join (inventoryChunks inst ns action)
    ∧ (∀ inst2 : KWebUI, inst.Spec = inst2.Spec →
        inventoryContent inst ns action = inventoryContent inst2 ns action)
    ∧ (inst.Spec.RegistryUrl = "" → "registry_url=quay.io\n" ∈ inventoryChunks inst ns action)
    ∧ (inst.Spec.RegistryNamespace = "" →
        "registry_namespace=kubevirt\n" ∈ inventoryChunks inst ns action)
    ∧ (inst.Spec.Version = "" → "docker_tag=v1.4\n" ∈ inventoryChunks inst ns action)
    ∧ (ns = "" → "kubevirt_web_ui_namespace=kubevirt-web-ui\n" ∈ inventoryChunks inst ns action)
    ∧ ("preserve_namespace=true\n" ∈ inventoryChunks inst ns action ↔ action = "deprovision")
    ∧ (("openshift_master_default_subdomain=" ++ inst.Spec.OpenshiftMasterDefaultSubdomain ++ "\n")
        ∈ inventoryChunks inst ns action ↔ ¬ inst.Spec.OpenshiftMasterDefaultSubdomain = "")
    ∧ (("public_master_hostname=" ++ inst.Spec.PublicMasterHostname ++ "\n")
        ∈ inventoryChunks inst ns action ↔ ¬ inst.Spec.PublicMasterHostname = "") := by
  refine ⟨rfl, ?_, ?_, ?_, ?_, ?_, ?_, ?_, ?_⟩
  · intro i2 h
    unfold inventoryContent inventoryChunks
    rw [h]
  · intro h
    simp [inventoryChunks, defStr, h]
  · intro h
    simp [inventoryChunks, defStr, h]
  · intro h
    simp [inventoryChunks, defStr, h]
  · intro h
    simp [inventoryChunks, defStr, h]
  · constructor
    · intro hmem
      by_contra hact
      have n1 := ne_of_key "preserve_namespace=true\n" "apb_action=" action "\n"
        (by decide) (by decide)
      have n2 := ne_of_key "preserve_namespace=true\n" "registry_url="
        (defStr inst.Spec.RegistryUrl "quay.io") "\n" (by decide) (by decide)
      have n3 := ne_of_key "preserve_namespace=true\n" "registry_namespace="
        (defStr inst.Spec.RegistryNamespace "kubevirt") "\n" (by decide) (by decide)
      have n4 := ne_of_key "preserve_namespace=true\n" "docker_tag="
        (defStr inst.Spec.Version "v1.4") "\n" (by decide) (by decide)
      have n5 := ne_of_key "preserve_namespace=true\n" "kubevirt_web_ui_namespace="
        (defStr ns "kubevirt-web-ui") "\n" (by decide) (by decide)
      have n6 := ne_of_key "preserve_namespace=true\n" "openshift_master_default_subdomain="
        inst.Spec.OpenshiftMasterDefaultSubdomain "\n" (by decide) (by decide)
      have n7 := ne_of_key "preserve_namespace=true\n" "public_master_hostname="
        inst.Spec.PublicMasterHostname "\n" (by decide) (by decide)
      simp [inventoryChunks, hact, n1, n2, n3, n4, n5, n6, n7] at hmem
    · intro h
      simp [inventoryChunks, h]
  · constructor
    · intro hmem
      by_contra hsub
      rw [hsub] at hmem
      have n1 := ne_of_key "openshift_master_default_subdomain=\n" "apb_action=" action "\n"
        (by decide) (by decide)
      have n2 := ne_of_key "openshift_master_default_subdomain=\n" "registry_url="
        (defStr inst.Spec.RegistryUrl "quay.io") "\n" (by decide) (by decide)
      have n3 := ne_of_key "openshift_master_default_subdomain=\n" "registry_namespace="
        (defStr inst.Spec.RegistryNamespace "kubevirt") "\n" (by decide) (by decide)
      have n4 := ne_of_key "openshift_master_default_subdomain=\n" "docker_tag="
        (defStr inst.Spec.Version "v1.4") "\n" (by decide) (by decide)
      have n5 := ne_of_key "openshift_master_default_subdomain=\n" "kubevirt_web_ui_namespace="
        (defStr ns "kubevirt-web-ui") "\n" (by decide) (by decide)
      have n7 := ne_of_key "openshift_master_default_subdomain=\n" "public_master_hostname="
        inst.Spec.PublicMasterHostname "\n" (by decide) (by decide)
      simp [inventoryChunks, hsub, n1, n2, n3, n4, n5, n7] at hmem
    · intro h
      simp [inventoryChunks, h]
  · constructor
    · intro hmem
      by_contra hhost
      rw [hhost] at hmem
      have n1 := ne_of_key "public_master_hostname=\n" "apb_action=" action "\n"
        (by decide) (by decide)
      have n2 := ne_of_key "public_master_hostname=\n" "registry_url="
        (defStr inst.Spec.RegistryUrl "quay.io") "\n" (by decide) (by decide)
      have n3 := ne_of_key "public_master_hostname=\n" "registry_namespace="
        (defStr inst.Spec.RegistryNamespace "kubevirt") "\n" (by decide) (by decide)
      have n4 := ne_of_key "public_master_hostname=\n" "docker_tag="
        (defStr inst.Spec.Version "v1.4") "\n" (by decide) (by decide)
      have n5 := ne_of_key "public_master_hostname=\n" "kubevirt_web_ui_namespace="
        (defStr ns "kubevirt-web-ui") "\n" (by decide) (by decide)
      have n6 := ne_of_key "public_master_hostname=\n" "openshift_master_default_subdomain="
        inst.Spec.OpenshiftMasterDefaultSubdomain "\n" (by decide) (by decide)
      simp [inventoryChunks, hhost, n1, n2, n3, n4, n5, n6] at hmem
    · intro h
      simp [inventoryChunks, h]
/-! ### The status writer is best-effort and invisible to the pass outcome

`SRel` relates two states that agree on everything a pass's returned
error can depend on: the stored objects (the resource up to its status
fields), the file system and the oracles — but *not* on the status-write
oracles `statusGetOk`/`statusUpdateOk`, the event log, or the removal
log.  Every operation preserves `SRel` and produces equal errors on
related states, so the returned error of a whole `Reconcile` pass is
independent of whether status writes succeed. -/

lemma updateStatus_files (s : S) (p m : String) :
    (updateStatus s p m).files = s.files := by rw [updateStatus_eq]
lemma updateStatus_suffixes (s : S) (p m : String) :
    (updateStatus s p m).suffixes = s.suffixes := by rw [updateStatus_eq]
lemma updateStatus_getInstanceErr (s : S) (p m : String) :
    (updateStatus s p m).getInstanceErr = s.getInstanceErr := by rw [updateStatus_eq]
lemma updateStatus_getDeploymentErr (s : S) (p m : String) :
    (updateStatus s p m).getDeploymentErr = s.getDeploymentErr := by rw [updateStatus_eq]

lemma updateStatus_kwebui_spec (s : S) (p m : String) :
    (updateStatus s p m).kwebui.map KWebUI.Spec = s.kwebui.map KWebUI.Spec := by
  rw [updateStatus_eq]
  dsimp only
  split
  · rcases s.kwebui <;> simp
  · rfl

structure SRel (s t : S) : Prop where
  kwebui_spec : s.kwebui.map KWebUI.Spec = t.kwebui.map KWebUI.Spec
  deployment : s.deployment = t.deployment
  files : s.files = t.files
  suffixes : s.suffixes = t.suffixes
  inClusterOk : s.inClusterOk = t.inClusterOk
  loginOk : s.loginOk = t.loginOk
  projectOk : s.projectOk = t.projectOk
  createOk : s.createOk = t.createOk
  writeOk : s.writeOk = t.writeOk
  playbookOutcomes : s.playbookOutcomes = t.playbookOutcomes
  ownerGetOk : s.ownerGetOk = t.ownerGetOk
  getInstanceErr : s.getInstanceErr = t.getInstanceErr
  getDeploymentErr : s.getDeploymentErr = t.getDeploymentErr

lemma srel_updateStatus {s t : S} (h : SRel s t) (p m : String) :
    SRel (updateStatus s p m) (updateStatus t p m) := by
  constructor
  · rw [updateStatus_kwebui_spec, updateStatus_kwebui_spec]; exact h.kwebui_spec
  · rw [updateStatus_deployment, updateStatus_deployment]; exact h.deployment
  · rw [updateStatus_files, updateStatus_files]; exact h.files
  · rw [updateStatus_suffixes, updateStatus_suffixes]; exact h.suffixes
  · rw [updateStatus_inClusterOk, updateStatus_inClusterOk]; exact h.inClusterOk
  · rw [updateStatus_loginOk, updateStatus_loginOk]; exact h.loginOk
  · rw [updateStatus_projectOk, updateStatus_projectOk]; exact h.projectOk
  · rw [updateStatus_createOk, updateStatus_createOk]; exact h.createOk
  · rw [updateStatus_writeOk, updateStatus_writeOk]; exact h.writeOk
  · rw [updateStatus_playbookOutcomes, updateStatus_playbookOutcomes]; exact h.playbookOutcomes
  · rw [updateStatus_ownerGetOk, updateStatus_ownerGetOk]; exact h.ownerGetOk
  · rw [updateStatus_getInstanceErr, updateStatus_getInstanceErr]; exact h.getInstanceErr
  · rw [updateStatus_getDeploymentErr, updateStatus_getDeploymentErr]; exact h.getDeploymentErr

lemma srel_removeFile {s t : S} (h : SRel s t) (n : String) :
    SRel (removeFile s n) (removeFile t n) := by
  obtain ⟨h1, h2, h3, h4, h5, h6, h7, h8, h9, h10, h11, h12, h13⟩ := h
  unfold removeFile
  exact ⟨h1, h2, by rw [h3], h4, h5, h6, h7, h8, h9, h10, h11, h12, h13⟩

lemma loginClient_congr {s t : S} (ns : String) (h : SRel s t) :
    (loginClient s ns).2 = (loginClient t ns).2 ∧ SRel (loginClient s ns).1 (loginClient t ns).1 := by
  obtain ⟨h1, h2, h3, h4, h5, h6, h7, h8, h9, h10, h11, h12, h13⟩ := h
  unfold loginClient
  rw [uniqueStep_eq, uniqueStep_eq]
  simp only [h2, h3, h4, h5, h6, h7, h8, h9, h10, h11, h12, h13]
  by_cases hic : t.inClusterOk <;> by_cases hlo : t.loginOk <;> by_cases hpr : t.projectOk <;>
    simp [hic, hlo, hpr] <;>
    constructor <;>
    simp [h1, h2, h3, h4, h5, h6, h7, h8, h9, h10, h11, h12, h13]

lemma generateInventory_congr {s t : S} (inst1 inst2 : KWebUI) (ns action : String)
    (h : SRel s t) :
    (generateInventory s inst1 ns action).2 = (generateInventory t inst2 ns action).2
    ∧ SRel (generateInventory s inst1 ns action).1 (generateInventory t inst2 ns action).1 := by
  obtain ⟨h1, h2, h3, h4, h5, h6, h7, h8, h9, h10, h11, h12, h13⟩ := h
  unfold generateInventory
  rw [uniqueStep_eq, uniqueStep_eq]
  simp only [h2, h3, h4, h5, h6, h7, h8, h9, h10, h11, h12, h13]
  by_cases hcr : t.createOk <;> by_cases hwr : t.writeOk <;>
    simp [hcr, hwr] <;>
    constructor <;>
    simp [h1, h2, h3, h4, h5, h6, h7, h8, h9, h10, h11, h12, h13]

lemma runPlaybook_congr {s t : S} (i1 c1 i2 c2 action : String) (h : SRel s t) :
    (runPlaybook s i1 c1 action).2 = (runPlaybook t i2 c2 action).2
    ∧ SRel (runPlaybook s i1 c1 action).1 (runPlaybook t i2 c2 action).1 := by
  obtain ⟨h1, h2, h3, h4, h5, h6, h7, h8, h9, h10, h11, h12, h13⟩ := h
  rw [runPlaybook_eq, runPlaybook_eq]
  simp only [h10]
  refine ⟨by simp, ?_⟩
  constructor <;> simp [h1, h2, h3, h4, h5, h6, h7, h8, h9, h10, h11, h12, h13]

lemma rpws_congr {s t : S} (ns : String) (inst1 inst2 : KWebUI) (action : String)
    (h : SRel s t) :
    (runPlaybookWithSetup s ns inst1 action).2 = (runPlaybookWithSetup t ns inst2 action).2
    ∧ SRel (runPlaybookWithSetup s ns inst1 action).1 (runPlaybookWithSetup t ns inst2 action).1 := by
  unfold runPlaybookWithSetup
  obtain ⟨hl2, hlrel⟩ := loginClient_congr ns h
  rcases ha : loginClient s ns with ⟨s1, r1⟩
  rcases hb : loginClient t ns with ⟨t1, r2⟩
  rw [ha, hb] at hl2 hlrel
  simp only at hl2 hlrel
  subst hl2
  cases r1 with
  | error e => exact ⟨rfl, hlrel⟩
  | ok cfg =>
    dsimp only
    obtain ⟨hg2, hgrel⟩ := generateInventory_congr inst1 inst2 ns action hlrel
    rcases hc : generateInventory s1 inst1 ns action with ⟨s2, q1⟩
    rcases hdd : generateInventory t1 inst2 ns action with ⟨t2, q2⟩
    rw [hc, hdd] at hg2 hgrel
    simp only at hg2 hgrel
    subst hg2
    cases q1 with
    | error e => exact ⟨rfl, srel_removeFile hgrel cfg⟩
    | ok inv =>
      dsimp only
      obtain ⟨hr2, hrrel⟩ := runPlaybook_congr inv cfg inv cfg action hgrel
      rcases he : runPlaybook s2 inv cfg action with ⟨s3, e1⟩
      rcases hf : runPlaybook t2 inv cfg action with ⟨t3, e2⟩
      rw [he, hf] at hr2 hrrel
      simp only at hr2 hrrel
      subst hr2
      exact ⟨rfl, srel_removeFile (srel_removeFile hrrel inv) cfg⟩

lemma setOwnerReference_congr {s t : S} (i1 i2 : KWebUI) (h : SRel s t) :
    (setOwnerReference s i1).2 = (setOwnerReference t i2).2
    ∧ SRel (setOwnerReference s i1).1 (setOwnerReference t i2).1 := by
  unfold setOwnerReference
  rw [h.deployment, h.ownerGetOk]
  rcases hdp : t.deployment with _ | d <;> rcases hog : t.ownerGetOk <;>
    simp [hdp, hog] <;>
    first
      | exact h
      | exact srel_updateStatus h _ _

lemma deprovision_congr {s t : S} (ns : String) (i1 i2 : KWebUI) (h : SRel s t) :
    (deprovision s ns i1).2 = (deprovision t ns i2).2
    ∧ SRel (deprovision s ns i1).1 (deprovision t ns i2).1 := by
  unfold deprovision
  dsimp only
  obtain ⟨hp2, hprel⟩ :=
    rpws_congr ns i1 i2 "deprovision" (srel_updateStatus h PhaseDeprovision "")
  rcases ha : runPlaybookWithSetup (updateStatus s PhaseDeprovision "") ns i1 "deprovision"
    with ⟨s2, e1⟩
  rcases hb : runPlaybookWithSetup (updateStatus t PhaseDeprovision "") ns i2 "deprovision"
    with ⟨t2, e2⟩
  rw [ha, hb] at hp2 hprel
  simp only at hp2 hprel
  subst hp2
  cases e1 with
  | none => exact ⟨rfl, srel_updateStatus hprel _ _⟩
  | some e => exact ⟨rfl, srel_updateStatus hprel _ _⟩

lemma freshProvision_congr {s t : S} (ns : String) (i1 i2 : KWebUI) (h : SRel s t)
    (hspec : i1.Spec = i2.Spec) :
    (freshProvision s ns i1).2 = (freshProvision t ns i2).2
    ∧ SRel (freshProvision s ns i1).1 (freshProvision t ns i2).1 := by
  unfold freshProvision
  rw [hspec]
  by_cases hv : i2.Spec.Version = ""
  · rw [if_pos hv, if_pos hv]
    exact ⟨rfl, srel_updateStatus h _ _⟩
  · rw [if_neg hv, if_neg hv]
    dsimp only
    obtain ⟨hp2, hprel⟩ := rpws_congr ns i1 i2 "provision"
      (srel_updateStatus h PhaseFreshProvision ("Target version: " ++ i2.Spec.Version))
    rcases ha : runPlaybookWithSetup
        (updateStatus s PhaseFreshProvision ("Target version: " ++ i2.Spec.Version)) ns i1
        "provision" with ⟨s2, e1⟩
    rcases hb : runPlaybookWithSetup
        (updateStatus t PhaseFreshProvision ("Target version: " ++ i2.Spec.Version)) ns i2
        "provision" with ⟨t2, e2⟩
    rw [ha, hb] at hp2 hprel
    simp only at hp2 hprel
    subst hp2
    cases e1 with
    | some e => exact ⟨rfl, srel_updateStatus hprel _ _⟩
    | none =>
      dsimp only
      obtain ⟨ho2, horel⟩ := setOwnerReference_congr i1 i2 hprel
      rcases hc : setOwnerReference s2 i1 with ⟨s3, o1⟩
      rcases hdd : setOwnerReference t2 i2 with ⟨t3, o2⟩
      rw [hc, hdd] at ho2 horel
      simp only at ho2 horel
      exact ⟨rfl, srel_updateStatus horel _ _⟩

lemma reconcileExisting_congr {s t : S} (ns : String) (i1 i2 : KWebUI) (d : Deployment)
    (h : SRel s t) (hspec : i1.Spec = i2.Spec) :
    (reconcileExistingDeployment s ns i1 d).2 = (reconcileExistingDeployment t ns i2 d).2 := by
  unfold reconcileExistingDeployment
  rw [hspec]
  rcases hrv : readExistingVersion d with _ | _ | v <;> dsimp only
  · by_cases hveq : i2.Spec.Version = v
    · rw [if_pos hveq, if_pos hveq]
    · rw [if_neg hveq, if_neg hveq]
      by_cases hv0 : i2.Spec.Version = ""
      · rw [if_pos hv0, if_pos hv0]
        exact (deprovision_congr ns i1 i2 h).1
      · rw [if_neg hv0, if_neg hv0]
        try dsimp only
        obtain ⟨hd2, hdrel⟩ := deprovision_congr ns i1 i2 h
        rcases ha : deprovision s ns i1 with ⟨s2, e1⟩
        rcases hb : deprovision t ns i2 with ⟨t2, e2⟩
        rw [ha, hb] at hd2 hdrel
        simp only at hd2 hdrel
        subst hd2
        cases e1 with
        | some e => rfl
        | none =>
          dsimp only
          exact (freshProvision_congr ns i1 i2 hdrel hspec).1

lemma Reconcile_congr {s t : S} (ns : String) (h : SRel s t) :
    (Reconcile s ns).2 = (Reconcile t ns).2 := by
  unfold Reconcile
  rw [h.getInstanceErr]
  by_cases hgi : t.getInstanceErr
  · simp [hgi]
  · simp only [hgi, if_false, ite_false]
    have hsp := h.kwebui_spec
    rcases hk1 : s.kwebui with _ | i1 <;> rcases hk2 : t.kwebui with _ | i2 <;>
      rw [hk1, hk2] at hsp <;> try simp at hsp
    · rfl
    · dsimp only
      rw [h.getDeploymentErr]
      by_cases hgd : t.getDeploymentErr
      · simp [hgd]
      · simp only [hgd, if_false, ite_false]
        rw [h.deployment]
        rcases hdp : t.deployment with _ | d <;> dsimp only
        · exact (freshProvision_congr ns i1 i2 h hsp).1
        · exact reconcileExisting_congr ns i1 i2 d h hsp

lemma updateStatus_removeCalls (s : S) (p m : String) :
    (updateStatus s p m).removeCalls = s.removeCalls := by rw [updateStatus_eq]

lemma updateStatus_fileContents (s : S) (p m : String) :
    (updateStatus s p m).fileContents = s.fileContents := by rw [updateStatus_eq]

/-- **C8.** The status-write operation re-fetches the resource
immediately before writing and sets only the two status fields on the
re-fetched copy; a fetch failure (transient or not-found) or an update
failure is swallowed, leaving the store untouched; the operation itself
returns nothing and touches nothing else (files, removal log, written
contents, the Deployment); and no choice of status-write oracle outcomes
can change the error a whole reconcile pass returns — status reporting
never causes the pass to fail or retry. -/
theorem claim_C8_status_write_best_effort (s : S) (phase msg : String) :
    (updateStatus s phase msg).events = s.events ++ [Event.statusWrite phase msg]
    ∧ (updateStatus s phase msg).files = s.files
    ∧ (updateStatus s phase msg).removeCalls = s.removeCalls
    ∧ (updateStatus s phase msg).fileContents = s.fileContents
    ∧ (updateStatus s phase msg).deployment = s.deployment
    ∧ (s.statusGetOk = false → (updateStatus s phase msg).kwebui = s.kwebui)
    ∧ (s.kwebui = none → (updateStatus s phase msg).kwebui = none)
    ∧ (s.statusUpdateOk = false → (updateStatus s phase msg).kwebui = s.kwebui)
    ∧ (∀ inst, s.kwebui = some inst → s.statusGetOk = true → s.statusUpdateOk = true →
        (updateStatus s phase msg).kwebui =
          some { inst with Status := { Phase := phase, Message := msg } })
    ∧ (∀ ns g u, (Reconcile { s with statusGetOk := g, statusUpdateOk := u } ns).2
        = (Reconcile s ns).2) := by
  refine ⟨updateStatus_events s phase msg, updateStatus_files s phase msg,
    updateStatus_removeCalls s phase msg, updateStatus_fileContents s phase msg,
    updateStatus_deployment s phase msg, ?_, ?_, ?_, ?_, ?_⟩
  · intro hg
    rw [updateStatus_eq]
    simp [hg]
  · intro hk
    rw [updateStatus_eq]
    simp [hk]
  · intro hu
    rw [updateStatus_eq]
    simp [hu]
  · intro inst hk hg hu
    rw [updateStatus_eq]
    simp [hk, hg, hu]
  · intro ns g u
    exact Reconcile_congr ns
      ⟨rfl, rfl, rfl, rfl, rfl, rfl, rfl, rfl, rfl, rfl, rfl, rfl, rfl⟩

end KWebUIOp
